import Mathlib

/-!
Verification of the SoapySDRUtil command-line utility
(apps/SoapySDRUtil.cpp) against its natural-language specification.

The C++ source is shallowly embedded: each workflow function of the
utility becomes a pure Lean function over an explicit environment that
stands for the external SoapySDR library (module registry, device
enumeration, device construction).  A call that can throw a C++
exception is modelled as `Except String`, the error carrying the
`ex.what()` message.  Each embedded workflow returns a trace recording
the stdout lines, the stderr lines, the resource-call counts and the
process exit status, so that the spec claims about output, exit codes
and resource discipline become statements about these traces.
-/

namespace SoapySDRUtil

/-- SoapySDR::Kwargs is std::map<std::string, std::string>; it is embedded
as its association list in map iteration order (sorted, duplicate-free
keys), which is all the utility observes of it. -/
abbrev Kwargs := List (String × String)

/-- Modelled from the spec: SoapySDR::KwargsToString lives in the library
(lib/Types.cpp), not in the shown apps/ source.  Spec 4.1: serialization
renders the k=v pairs joined by a comma and space in map iteration
order. -/
def KwargsToString (kw : Kwargs) : String :=
  String.intercalate ", " (kw.map (fun p => p.1 ++ "=" ++ p.2))

/-- EXIT_SUCCESS of cstdlib. -/
def EXIT_SUCCESS : Nat := 0

/-- EXIT_FAILURE of cstdlib. -/
def EXIT_FAILURE : Nat := 1

/-- External behaviour of one constructed SoapySDR::Device.  Each member
call (and the external SoapySDRDeviceProbe formatter) may throw. -/
structure DeviceBehavior where
  getDriverKey : Except String String
  getHardwareKey : Except String String
  getHardwareInfo : Except String Kwargs
  probeText : Except String String

/-- External SoapySDR facade used by the find/make/probe workflows:
Device::enumerate and Device::make (the latter may throw). -/
structure Env where
  enumerate : String → List Kwargs
  make : String → Except String DeviceBehavior

/-- Observable outcome of makeDevice or probeDevice: stdout lines,
stderr lines, the number of Device::make calls that returned a handle,
the number of Device::unmake calls, and the returned exit status. -/
structure DeviceTrace where
  out : List String
  err : List String
  makeSuccesses : Nat
  unmakeCalls : Nat
  exitCode : Nat
deriving DecidableEq

/-- Embedding of makeDevice (SoapySDRUtil.cpp lines 169-190).  The
try block is the nested match cascade: every potentially-throwing call
is matched, and each error branch is the single catch handler, which
prints the message to stderr and returns EXIT_FAILURE.  Note that the
catch branches after a successful make do not perform an unmake, exactly
as in the source, where the unmake call sits only at the end of the try
block. -/
def makeDevice (env : Env) (argStr : String) : DeviceTrace :=
  let out0 := ["Make device " ++ argStr]
  match env.make argStr with
  | .error msg =>
    { out := out0, err := ["Error making device: " ++ msg],
      makeSuccesses := 0, unmakeCalls := 0, exitCode := EXIT_FAILURE }
  | .ok device =>
    match device.getDriverKey with
    | .error msg =>
      { out := out0, err := ["Error making device: " ++ msg],
        makeSuccesses := 1, unmakeCalls := 0, exitCode := EXIT_FAILURE }
    | .ok driverKey =>
      let out1 := out0 ++ ["  driver=" ++ driverKey]
      match device.getHardwareKey with
      | .error msg =>
        { out := out1, err := ["Error making device: " ++ msg],
          makeSuccesses := 1, unmakeCalls := 0, exitCode := EXIT_FAILURE }
      | .ok hardwareKey =>
        let out2 := out1 ++ ["  hardware=" ++ hardwareKey]
        match device.getHardwareInfo with
        | .error msg =>
          { out := out2, err := ["Error making device: " ++ msg],
            makeSuccesses := 1, unmakeCalls := 0, exitCode := EXIT_FAILURE }
        | .ok info =>
          { out := out2 ++ info.map (fun p => "  " ++ p.1 ++ "=" ++ p.2) ++ [""],
            err := [],
            makeSuccesses := 1, unmakeCalls := 1, exitCode := EXIT_SUCCESS }

/-- Embedding of probeDevice (SoapySDRUtil.cpp lines 195-211), with the
same try/catch shape as makeDevice but a single probe step (the external
SoapySDRDeviceProbe formatter) between make and unmake. -/
def probeDevice (env : Env) (argStr : String) : DeviceTrace :=
  let out0 := ["Probe device " ++ argStr]
  match env.make argStr with
  | .error msg =>
    { out := out0, err := ["Error probing device: " ++ msg],
      makeSuccesses := 0, unmakeCalls := 0, exitCode := EXIT_FAILURE }
  | .ok device =>
    match device.probeText with
    | .error msg =>
      { out := out0, err := ["Error probing device: " ++ msg],
        makeSuccesses := 1, unmakeCalls := 0, exitCode := EXIT_FAILURE }
    | .ok txt =>
      { out := out0 ++ [txt, ""], err := [],
        makeSuccesses := 1, unmakeCalls := 1, exitCode := EXIT_SUCCESS }

/-- Observable outcome of findDevices. -/
structure FindTrace where
  out : List String
  err : List String
  exitCode : Nat
deriving DecidableEq

/-- The sparse entry of one enumeration result (lines 139-141): the value
of the label key when present, otherwise the serialized argument map. -/
def sparseEntry (r : Kwargs) : String :=
  match r.lookup "label" with
  | some v => v
  | none => KwargsToString r

/-- std::sort on std::vector<std::string> with the default operator<
produces the unique lexicographically ascending reordering; it is
embedded as insertion sort by the ≤ order on String. -/
def sortStrings (l : List String) : List String :=
  List.insertionSort (fun a b => a ≤ b) l

/-- Embedding of findDevices (SoapySDRUtil.cpp lines 131-164).  The
sparse branch builds the sparse entries, sorts them and numbers them
from zero; the full branch prints each result in enumeration order.
The exit status is EXIT_FAILURE exactly when the enumeration result is
empty, in both branches. -/
def findDevices (env : Env) (argStr : String) (sparse : Bool) : FindTrace :=
  let results := env.enumerate argStr
  if sparse then
    let sparseResults := results.map sparseEntry
    let sorted := sortStrings sparseResults
    { out := sorted.enum.map (fun p => toString p.1 ++ ": " ++ p.2),
      err := [],
      exitCode := if results.isEmpty then EXIT_FAILURE else EXIT_SUCCESS }
  else
    { out := (results.enum.map (fun p =>
          ("Found device " ++ toString p.1) ::
            p.2.map (fun kv => "  " ++ kv.1 ++ " = " ++ kv.2) ++ [""])).flatten
        ++ (if results.isEmpty then [] else [""]),
      err := if results.isEmpty then ["No devices found!"] else [],
      exitCode := if results.isEmpty then EXIT_FAILURE else EXIT_SUCCESS }

/-- Registry facade for checkDriver: the key set of
Registry::listFindFunctions() as observed after the loadModules pass. -/
structure RegistryEnv where
  factories : List String

/-- Observable outcome of checkDriver, recording how many
SoapySDR::loadModules passes were performed. -/
structure CheckTrace where
  out : List String
  loadModulesCalls : Nat
  exitCode : Nat
deriving DecidableEq

/-- Embedding of checkDriver (SoapySDRUtil.cpp lines 216-235): one
loadModules pass, then the factory key set is consulted; a missing key
yields MISSING! and EXIT_FAILURE, a present key yields PRESENT and
EXIT_SUCCESS. -/
def checkDriver (env : RegistryEnv) (driverName : String) : CheckTrace :=
  let out0 := ["Loading modules... done"]
  let out1 := out0 ++ ["Checking driver \x27" ++ driverName ++ "\x27... "]
  if (env.factories.contains driverName) = false then
    { out := out1 ++ ["MISSING!"], loadModulesCalls := 1, exitCode := EXIT_FAILURE }
  else
    { out := out1 ++ ["PRESENT"], loadModulesCalls := 1, exitCode := EXIT_SUCCESS }

/-- External environment of the info report: version strings, install
root, search paths and modules as listed by the library, the stat-based
missing test, per-module load error and version, the factory key set
and the converter formats. -/
structure InfoEnv where
  libVersion : String
  apiVersion : String
  abiVersion : String
  rootPath : String
  searchPaths : List String
  modules : List String
  pathMissing : String → Bool
  loadModule : String → String
  getModuleVersion : String → String
  factories : List String
  converterSources : List String
  targetFormats : String → List String

/-- Observable outcome of printInfo: stdout lines, the sequence of
SoapySDR::loadModule calls in order, and the returned exit status. -/
structure InfoTrace where
  out : List String
  loadModuleCalls : List String
  exitCode : Nat
deriving DecidableEq

/-- Embedding of the alignment width of printInfo (lines 74-79): the
running maximum of string lengths folded first over the search paths
and then over the modules, from zero. -/
def maxPathLen (env : InfoEnv) : Nat :=
  env.modules.foldl (fun m p => max m p.length)
    (env.searchPaths.foldl (fun m p => max m p.length) 0)

/-- Embedding of std::string(n, space): n pad spaces. -/
def padTo (n : Nat) : String := String.mk (List.replicate n ' ')

/-- One search-path line of printInfo (lines 82-89): the path, and when
stat fails the alignment pad followed by the missing marker. -/
def searchPathLine (env : InfoEnv) (path : String) : String :=
  "Search path:  " ++ path ++
    (if env.pathMissing path
     then padTo (maxPathLen env - path.length) ++ " (missing)"
     else "")

/-- One module line of printInfo (lines 92-100): the module path, the
load error indented on a continuation line when nonempty, and when the
version is nonempty the alignment pad followed by the version. -/
def moduleLine (env : InfoEnv) (modPath : String) : String :=
  "Module found: " ++ modPath ++
    (if (env.loadModule modPath).isEmpty then ""
     else "\n  " ++ env.loadModule modPath) ++
    (if (env.getModuleVersion modPath).isEmpty then ""
     else padTo (maxPathLen env - modPath.length) ++ " (" ++ env.getModuleVersion modPath ++ ")")

/-- Embedding of std::setw(5) on the converter source format:
right-justified padding to width five. -/
def setwPad (w : Nat) (s : String) : String := padTo (w - s.length) ++ s

/-- Embedding of printInfo (SoapySDRUtil.cpp lines 67-126): version
header, search-path lines, module lines (loading every module in list
order), the no-modules sentinel, the factory list line and the
converter lines; always returns EXIT_SUCCESS. -/
def printInfo (env : InfoEnv) : InfoTrace :=
  let headerLines :=
    ["Lib Version: v" ++ env.libVersion,
     "API Version: v" ++ env.apiVersion,
     "ABI Version: v" ++ env.abiVersion,
     "Install root: " ++ env.rootPath]
  let pathLines := env.searchPaths.map (searchPathLine env)
  let moduleLines := env.modules.map (moduleLine env)
  let noModulesLine := if env.modules.isEmpty then ["No modules found!"] else []
  let factoriesStr := String.intercalate ", " env.factories
  let factoriesLine :=
    ["Available factories... " ++
      (if factoriesStr.isEmpty then "No factories found!" else factoriesStr)]
  let converterLines := env.converterSources.map (fun source =>
    " - " ++ setwPad 5 source ++ " -> [" ++
      String.intercalate ", " (env.targetFormats source) ++ "]")
  { out := headerLines ++ pathLines ++ moduleLines ++ noModulesLine ++
      factoriesLine ++ ["Available converters..."] ++ converterLines,
    loadModuleCalls := env.modules,
    exitCode := EXIT_SUCCESS }

/-- The recognized long options of main (lines 255-270), each with the
optional argument getopt may supply. -/
inductive Opt where
  | help
  | info
  | find (optarg : Option String)
  | make (optarg : Option String)
  | probe (optarg : Option String)
  | check (optarg : Option String)
  | sparse
  | args (optarg : Option String)
  | rate (optarg : Option String)
  | channels (optarg : Option String)
  | direction (optarg : Option String)
deriving DecidableEq

/-- The local variables of main (lines 242-250). -/
structure MainState where
  argStr : String
  chanStr : String
  dirStr : String
  sampleRate : Rat
  driverName : String
  findDevicesFlag : Bool
  sparsePrintFlag : Bool
  makeDeviceFlag : Bool
  probeDeviceFlag : Bool
deriving DecidableEq

/-- The initial values of the locals of main. -/
def initState : MainState :=
  { argStr := "", chanStr := "", dirStr := "", sampleRate := 0, driverName := "",
    findDevicesFlag := false, sparsePrintFlag := false,
    makeDeviceFlag := false, probeDeviceFlag := false }

/-- The two options on which main returns from inside the option loop. -/
inductive Early where
  | helpReturn
  | infoReturn
deriving DecidableEq

/-- Embedding of the getopt loop of main (lines 273-314).  Each
recognized option updates the state; help and info return from main
immediately, embedded as the left summand.  std::stod is an external
collaborator passed in as stod. -/
def parseLoop (stod : String → Rat) : List Opt → MainState → Early ⊕ MainState
  | [], s => Sum.inr s
  | o :: rest, s =>
    match o with
    | Opt.help => Sum.inl Early.helpReturn
    | Opt.info => Sum.inl Early.infoReturn
    | Opt.find a =>
        parseLoop stod rest
          { s with findDevicesFlag := true,
                   argStr := match a with | some v => v | none => s.argStr }
    | Opt.make a =>
        parseLoop stod rest
          { s with makeDeviceFlag := true,
                   argStr := match a with | some v => v | none => s.argStr }
    | Opt.probe a =>
        parseLoop stod rest
          { s with probeDeviceFlag := true,
                   argStr := match a with | some v => v | none => s.argStr }
    | Opt.check a =>
        parseLoop stod rest
          { s with driverName := match a with | some v => v | none => s.driverName }
    | Opt.sparse =>
        parseLoop stod rest { s with sparsePrintFlag := true }
    | Opt.args a =>
        parseLoop stod rest
          { s with argStr := match a with | some v => v | none => s.argStr }
    | Opt.rate a =>
        parseLoop stod rest
          { s with sampleRate := match a with | some v => stod v | none => s.sampleRate }
    | Opt.channels a =>
        parseLoop stod rest
          { s with chanStr := match a with | some v => v | none => s.chanStr }
    | Opt.direction a =>
        parseLoop stod rest
          { s with dirStr := match a with | some v => v | none => s.dirStr }

/-- The six workflows main can hand control to after the option loop. -/
inductive Workflow where
  | checkW
  | findW
  | makeW
  | probeW
  | rateTestW
  | helpW
deriving DecidableEq

/-- Embedding of the dispatch chain of main (lines 317-329). -/
def dispatch (s : MainState) : Workflow :=
  if s.driverName ≠ "" then Workflow.checkW
  else if s.findDevicesFlag then Workflow.findW
  else if s.makeDeviceFlag then Workflow.makeW
  else if s.probeDeviceFlag then Workflow.probeW
  else if s.sampleRate ≠ 0 then Workflow.rateTestW
  else Workflow.helpW

/-- Stated from the spec, for comparison with dispatch: whether the
parsed state enables each workflow. -/
def enabledB (s : MainState) : Workflow → Bool
  | Workflow.checkW => decide (s.driverName ≠ "")
  | Workflow.findW => s.findDevicesFlag
  | Workflow.makeW => s.makeDeviceFlag
  | Workflow.probeW => s.probeDeviceFlag
  | Workflow.rateTestW => decide (s.sampleRate ≠ 0)
  | Workflow.helpW => true

/-- Stated from the spec: the fixed dispatch priority order. -/
def priorityOrder : List Workflow :=
  [Workflow.checkW, Workflow.findW, Workflow.makeW, Workflow.probeW, Workflow.rateTestW]

/-- Stated from the spec: the selected workflow is the first enabled one
in priority order, with help as the fallback. -/
def dispatchSpec (s : MainState) : Workflow :=
  (priorityOrder.find? (enabledB s)).getD Workflow.helpW

/-- Outcome of the external SoapySDRRateTest collaborator (excluded from
the core; supplied by the environment). -/
structure ExtResult where
  out : List String
  err : List String
  exitCode : Nat
deriving DecidableEq

/-- The whole external world of main. -/
structure MainEnv where
  dev : Env
  registry : RegistryEnv
  info : InfoEnv
  rateTest : String → Rat → String → String → ExtResult

/-- Embedding of printBanner (lines 28-35), written to stderr. -/
def bannerLines : List String :=
  ["######################################################",
   "##     Soapy SDR -- the SDR abstraction library     ##",
   "######################################################",
   ""]

/-- Embedding of printHelp (lines 40-62), written to stderr; printHelp
returns EXIT_SUCCESS. -/
def helpLines : List String :=
  ["Usage SoapySDRUtil [options]",
   "  Options summary:",
   "    --help \t\t\t\t Print this help message",
   "    --info \t\t\t\t Print module information",
   "    --find[=\"driver=foo,type=bar\"] \t Discover available devices",
   "    --make[=\"driver=foo,type=bar\"] \t Create a device instance",
   "    --probe[=\"driver=foo,type=bar\"] \t Print detailed information",
   "",
   "  Advanced options:",
   "    --check[=driverName] \t\t Check if driver is present",
   "    --sparse             \t\t Simplified output for --find",
   "",
   "  Rate testing options:",
   "    --args[=\"driver=foo\"] \t\t Arguments for testing",
   "    --rate[=stream rate Sps] \t\t Rate in samples per second",
   "    --channels[=\"0, 1, 2\"] \t\t List of channels, default 0",
   "    --direction[=RX or TX] \t\t Specify the channel direction",
   ""]

/-- Observable outcome of one whole invocation of main: stdout, stderr,
exit status, and which workflow (if any) ran after the option loop. -/
structure ProcResult where
  out : List String
  err : List String
  exitCode : Nat
  ranWorkflow : Option Workflow
deriving DecidableEq

/-- Embedding of main after the option loop (lines 316-329): the banner
unless sparse was set, then the dispatch chain. -/
def runParsed (env : MainEnv) (s : MainState) : ProcResult :=
  let banner := if s.sparsePrintFlag then [] else bannerLines
  if s.driverName ≠ "" then
    let t := checkDriver env.registry s.driverName
    { out := t.out, err := banner, exitCode := t.exitCode,
      ranWorkflow := some Workflow.checkW }
  else if s.findDevicesFlag then
    let t := findDevices env.dev s.argStr s.sparsePrintFlag
    { out := t.out, err := banner ++ t.err, exitCode := t.exitCode,
      ranWorkflow := some Workflow.findW }
  else if s.makeDeviceFlag then
    let t := makeDevice env.dev s.argStr
    { out := t.out, err := banner ++ t.err, exitCode := t.exitCode,
      ranWorkflow := some Workflow.makeW }
  else if s.probeDeviceFlag then
    let t := probeDevice env.dev s.argStr
    { out := t.out, err := banner ++ t.err, exitCode := t.exitCode,
      ranWorkflow := some Workflow.probeW }
  else if s.sampleRate ≠ 0 then
    let t := env.rateTest s.argStr s.sampleRate s.chanStr s.dirStr
    { out := t.out, err := banner ++ t.err, exitCode := t.exitCode,
      ranWorkflow := some Workflow.rateTestW }
  else
    { out := [], err := banner ++ helpLines, exitCode := EXIT_SUCCESS,
      ranWorkflow := some Workflow.helpW }

/-- The result of main given the outcome of the option loop: an early
help return prints the banner and the usage text to stderr with
EXIT_SUCCESS (lines 277-279), an early info return prints the banner to
stderr and the info report to stdout with its exit status (lines
280-282), and a completed loop dispatches the parsed state. -/
def afterParse (env : MainEnv) : Early ⊕ MainState → ProcResult
  | Sum.inl Early.helpReturn =>
      { out := [], err := bannerLines ++ helpLines, exitCode := EXIT_SUCCESS,
        ranWorkflow := none }
  | Sum.inl Early.infoReturn =>
      { out := (printInfo env.info).out, err := bannerLines,
        exitCode := (printInfo env.info).exitCode, ranWorkflow := none }
  | Sum.inr s => runParsed env s

/-- Embedding of main (lines 240-330): run the option loop from the
initial state and continue with afterParse. -/
def mainRun (stod : String → Rat) (env : MainEnv) (opts : List Opt) : ProcResult :=
  afterParse env (parseLoop stod opts initState)

/-- Environment whose device construction always throws. -/
def failEnv : Env :=
  { enumerate := fun _ => [], make := fun _ => Except.error "no device" }

/-- Environment whose enumeration is always empty. -/
def emptyEnv : Env :=
  { enumerate := fun _ => [], make := fun _ => Except.error "none" }

/-- Device whose identity accessors and probe step throw after a
successful construction. -/
def leakyDevice : DeviceBehavior :=
  { getDriverKey := Except.error "identity query failed",
    getHardwareKey := Except.ok "hw",
    getHardwareInfo := Except.ok [],
    probeText := Except.error "probe failed" }

/-- Environment whose make succeeds with leakyDevice. -/
def leakEnv : Env :=
  { enumerate := fun _ => [], make := fun _ => Except.ok leakyDevice }

/-- Device whose accessors and probe step all succeed. -/
def okDevice : DeviceBehavior :=
  { getDriverKey := Except.ok "drv",
    getHardwareKey := Except.ok "hw",
    getHardwareInfo := Except.ok [("serial", "1")],
    probeText := Except.ok "probe text" }

/-- Environment whose make succeeds with okDevice. -/
def okEnv : Env :=
  { enumerate := fun _ => [], make := fun _ => Except.ok okDevice }

/-- Concrete stod collaborator that parses nothing. -/
def stod0 : String → Rat := fun _ => 0

/-- Concrete device facade whose enumeration answers only the argument
string a. -/
def envSel : Env :=
  { enumerate := fun s => if s = "a" then [[("driver", "x")]] else [],
    make := fun _ => Except.error "none" }

/-- Concrete info environment: one missing search path, one module whose
load fails and one with a version. -/
def infoEnvW : InfoEnv :=
  { libVersion := "0.8.1", apiVersion := "0.8.200", abiVersion := "0.8",
    rootPath := "/usr/local",
    searchPaths := ["pa", "path2"],
    modules := ["bad", "longmodule"],
    pathMissing := fun p => p == "pa",
    loadModule := fun m => if m = "bad" then "load failed" else "",
    getModuleVersion := fun m => if m = "longmodule" then "0.1" else "",
    factories := ["rtlsdr"],
    converterSources := ["CF32"],
    targetFormats := fun _ => ["CS16"] }

/-- Concrete whole-process environment. -/
def mainEnvW : MainEnv :=
  { dev := envSel,
    registry := { factories := ["rtlsdr"] },
    info := infoEnvW,
    rateTest := fun _ _ _ _ => { out := [], err := [], exitCode := 0 } }

/-- The parsed state produced by a lone find option. -/
def parsedFindState : MainState :=
  { argStr := "", chanStr := "", dirStr := "", sampleRate := 0, driverName := "",
    findDevicesFlag := true, sparsePrintFlag := false,
    makeDeviceFlag := false, probeDeviceFlag := false }

/-- Two parsed states that agree on every field read by the non-rate-test
workflows (argument string, sample rate, driver name and the workflow
flags), leaving the rate-test-only channel and direction strings free. -/
def AgreeExceptRate (s t : MainState) : Prop :=
  s.argStr = t.argStr ∧ s.sampleRate = t.sampleRate ∧ s.driverName = t.driverName ∧
  s.findDevicesFlag = t.findDevicesFlag ∧ s.sparsePrintFlag = t.sparsePrintFlag ∧
  s.makeDeviceFlag = t.makeDeviceFlag ∧ s.probeDeviceFlag = t.probeDeviceFlag

end SoapySDRUtil

namespace SoapySDRUtil

/-- C1 (code bug): when Device::make succeeds but a subsequent
inspection step (getDriverKey) or the probe formatter throws, the
workflow returns through the catch handler without calling
Device::unmake: one successful make, zero unmakes, so the release count
does not equal the successful-make count on that exit path.  On the
fully successful path the two counts do agree. -/
theorem make_probe_handle_leak_when_inspection_throws :
    ((makeDevice leakEnv "").makeSuccesses = 1 ∧ (makeDevice leakEnv "").unmakeCalls = 0) ∧
    ((probeDevice leakEnv "").makeSuccesses = 1 ∧ (probeDevice leakEnv "").unmakeCalls = 0) ∧
    ((makeDevice okEnv "").makeSuccesses = 1 ∧ (makeDevice okEnv "").unmakeCalls = 1) ∧
    ((probeDevice okEnv "").makeSuccesses = 1 ∧ (probeDevice okEnv "").unmakeCalls = 1) :=
  ⟨⟨rfl, rfl⟩, ⟨rfl, rfl⟩, ⟨⟨rfl, rfl⟩, ⟨rfl, rfl⟩⟩⟩

/-- C2 counterexample: the find workflow in sparse mode over an empty
enumeration exits with code 1 but prints no error-stream message, so
the error-stream notice is not mode-independent. -/
theorem find_sparse_empty_has_no_err_message :
    (findDevices emptyEnv "" true).exitCode = 1 ∧
    (findDevices emptyEnv "" true).err = [] :=
  ⟨rfl, rfl⟩

/-- C2 amended: for every enumeration result the find workflow exits
with code 1 exactly when the device list is empty and 0 otherwise,
independent of presentation mode; the error-stream notice is printed
exactly when the list is empty in full mode, and never in sparse
mode. -/
theorem find_exit_code_iff_empty (env : Env) (argStr : String) (sparse : Bool) :
    ((findDevices env argStr sparse).exitCode = 1 ↔ env.enumerate argStr = []) ∧
    ((findDevices env argStr sparse).exitCode = 0 ↔ env.enumerate argStr ≠ []) ∧
    (findDevices env argStr true).err = [] ∧
    ((findDevices env argStr false).err
        = if (env.enumerate argStr).isEmpty then ["No devices found!"] else []) := by
  unfold findDevices
  by_cases hres : env.enumerate argStr = [] <;>
    cases sparse <;>
      simp [hres, EXIT_SUCCESS, EXIT_FAILURE]

/-- C3: for every driver name, checkDriver performs exactly one full
module-load pass and exits with code 0 exactly when the name is a key
of the factory registry, and with code 1 otherwise. -/
theorem checkDriver_registry_membership (env : RegistryEnv) (driverName : String) :
    (checkDriver env driverName).loadModulesCalls = 1 ∧
    ((checkDriver env driverName).exitCode = 0 ↔ driverName ∈ env.factories) ∧
    ((checkDriver env driverName).exitCode = 1 ↔ driverName ∉ env.factories) := by
  unfold checkDriver
  by_cases h : driverName ∈ env.factories <;>
    simp [h, EXIT_SUCCESS, EXIT_FAILURE]

/-- C5: a construction exception in makeDevice is caught at the workflow
boundary: its message is printed to the error stream, the workflow
returns EXIT_FAILURE (a well-defined result rather than a crash), and no
handle exists, so nothing is leaked. -/
theorem makeDevice_construction_error_caught (env : Env) (argStr msg : String)
    (h : env.make argStr = Except.error msg) :
    (makeDevice env argStr).exitCode = EXIT_FAILURE ∧
    (makeDevice env argStr).err = ["Error making device: " ++ msg] ∧
    (makeDevice env argStr).makeSuccesses = 0 ∧
    (makeDevice env argStr).unmakeCalls = 0 := by
  unfold makeDevice
  rw [h]
  exact ⟨rfl, rfl, rfl, rfl⟩

/-- Witness for C5 at a concrete environment whose construction throws. -/
theorem makeDevice_construction_error_caught_witness :
    (makeDevice failEnv "driver=none").exitCode = EXIT_FAILURE ∧
    (makeDevice failEnv "driver=none").err = ["Error making device: " ++ "no device"] ∧
    (makeDevice failEnv "driver=none").makeSuccesses = 0 ∧
    (makeDevice failEnv "driver=none").unmakeCalls = 0 :=
  makeDevice_construction_error_caught failEnv "driver=none" "no device" rfl

/-- C6: in sparse mode each descriptor contributes its label value when
present and its full serialization otherwise, the entries are sorted by
the lexicographic order on strings and printed as a zero-based numbered
list; full mode prints the descriptors unsorted in enumeration order. -/
theorem find_sparse_sorted_full_in_order (env : Env) (argStr : String) :
    (findDevices env argStr true).out
        = (sortStrings ((env.enumerate argStr).map sparseEntry)).enum.map
            (fun p => toString p.1 ++ ": " ++ p.2) ∧
    (sortStrings ((env.enumerate argStr).map sparseEntry)).Sorted (· ≤ ·) ∧
    (sortStrings ((env.enumerate argStr).map sparseEntry)).Perm
        ((env.enumerate argStr).map sparseEntry) ∧
    (findDevices env argStr false).out
        = ((env.enumerate argStr).enum.map (fun p =>
              ("Found device " ++ toString p.1) ::
                p.2.map (fun kv => "  " ++ kv.1 ++ " = " ++ kv.2) ++ [""])).flatten
          ++ (if (env.enumerate argStr).isEmpty then [] else [""]) := by
  refine ⟨rfl, ?_, ?_, rfl⟩
  · exact List.sorted_insertionSort _ _
  · exact List.perm_insertionSort _ _

/-- The workflow recorded by runParsed is exactly the dispatch of the
parsed state. -/
theorem runParsed_workflow (env : MainEnv) (s : MainState) :
    (runParsed env s).ranWorkflow = some (dispatch s) := by
  unfold runParsed dispatch
  split_ifs <;> rfl

/-- The dispatch chain of main agrees with the priority-list selection
stated by the spec. -/
theorem dispatch_eq_spec (s : MainState) : dispatch s = dispatchSpec s := by
  by_cases h1 : s.driverName = "" <;>
  cases h2 : s.findDevicesFlag <;>
  cases h3 : s.makeDeviceFlag <;>
  cases h4 : s.probeDeviceFlag <;>
  by_cases h5 : s.sampleRate = 0 <;>
  simp [dispatch, dispatchSpec, priorityOrder, enabledB, List.find?, h1, h2, h3, h4, h5]

/-- The option loop distributes over list append: an early return in the
first part wins, otherwise the second part continues from the state the
first part produced. -/
theorem parseLoop_append (stod : String → Rat) (xs ys : List Opt) (s : MainState) :
    parseLoop stod (xs ++ ys) s
      = match parseLoop stod xs s with
        | Sum.inl e => Sum.inl e
        | Sum.inr s1 => parseLoop stod ys s1 := by
  induction xs generalizing s with
  | nil => rfl
  | cons o rest ih =>
    cases o <;> simp only [List.cons_append, parseLoop] <;> first | rfl | apply ih

/-- A stretch of options containing neither help nor info never returns
early from the option loop. -/
theorem parseLoop_no_early (stod : String → Rat) (xs : List Opt) :
    ∀ s : MainState, (∀ o1 ∈ xs, o1 ≠ Opt.help ∧ o1 ≠ Opt.info) →
      ∃ s1, parseLoop stod xs s = Sum.inr s1 := by
  induction xs with
  | nil => exact fun s _ => ⟨s, rfl⟩
  | cons o rest ih =>
    intro s h
    have ho := h o (List.mem_cons_self o rest)
    have hrest : ∀ o1 ∈ rest, o1 ≠ Opt.help ∧ o1 ≠ Opt.info :=
      fun o1 h1 => h o1 (List.mem_cons_of_mem _ h1)
    cases o <;>
      first
        | exact absurd rfl ho.1
        | exact absurd rfl ho.2
        | (simp only [parseLoop]; exact ih _ hrest)

/-- The option loop preserves agreement up to the rate-test-only fields:
run on two agreeing states, it either returns early with the same
result on both, or completes with two agreeing states. -/
theorem parseLoop_agree (stod : String → Rat) (opts : List Opt) :
    ∀ s t : MainState, AgreeExceptRate s t →
      (∃ e, parseLoop stod opts s = Sum.inl e ∧ parseLoop stod opts t = Sum.inl e) ∨
      (∃ u v, parseLoop stod opts s = Sum.inr u ∧ parseLoop stod opts t = Sum.inr v ∧
        AgreeExceptRate u v) := by
  induction opts with
  | nil => exact fun s t h => Or.inr ⟨s, t, rfl, rfl, h⟩
  | cons o rest ih =>
    intro s t h
    obtain ⟨h1, h2, h3, h4, h5, h6, h7⟩ := h
    cases o with
    | help => exact Or.inl ⟨Early.helpReturn, rfl, rfl⟩
    | info => exact Or.inl ⟨Early.infoReturn, rfl, rfl⟩
    | find a =>
        simp only [parseLoop]
        exact ih _ _ ⟨by cases a <;> simp [h1], h2, h3, rfl, h5, h6, h7⟩
    | make a =>
        simp only [parseLoop]
        exact ih _ _ ⟨by cases a <;> simp [h1], h2, h3, h4, h5, rfl, h7⟩
    | probe a =>
        simp only [parseLoop]
        exact ih _ _ ⟨by cases a <;> simp [h1], h2, h3, h4, h5, h6, rfl⟩
    | check a =>
        simp only [parseLoop]
        exact ih _ _ ⟨h1, h2, by cases a <;> simp [h3], h4, h5, h6, h7⟩
    | sparse =>
        simp only [parseLoop]
        exact ih _ _ ⟨h1, h2, h3, h4, rfl, h6, h7⟩
    | args a =>
        simp only [parseLoop]
        exact ih _ _ ⟨by cases a <;> simp [h1], h2, h3, h4, h5, h6, h7⟩
    | rate a =>
        simp only [parseLoop]
        exact ih _ _ ⟨h1, by cases a <;> simp [h2], h3, h4, h5, h6, h7⟩
    | channels a =>
        simp only [parseLoop]
        exact ih _ _ ⟨h1, h2, h3, h4, h5, h6, h7⟩
    | direction a =>
        simp only [parseLoop]
        exact ih _ _ ⟨h1, h2, h3, h4, h5, h6, h7⟩

/-- Two agreeing parsed states produce the same process result whenever
the dispatched workflow is not the rate test (the only consumer of the
channel and direction strings). -/
theorem runParsed_agree (env : MainEnv) (u v : MainState) (h : AgreeExceptRate u v)
    (hw : dispatch u ≠ Workflow.rateTestW) : runParsed env u = runParsed env v := by
  obtain ⟨h1, h2, h3, h4, h5, h6, h7⟩ := h
  unfold dispatch at hw
  rw [h2, h3, h4, h6, h7] at hw
  unfold runParsed
  rw [h1, h2, h3, h4, h5, h6, h7]
  split_ifs at hw ⊢ <;> first | rfl | exact absurd rfl hw

/-- The accumulator never exceeds the running length maximum. -/
theorem foldl_max_le_init (l : List String) (acc : Nat) :
    acc ≤ l.foldl (fun m p => max m p.length) acc := by
  induction l generalizing acc with
  | nil => exact Nat.le_refl acc
  | cons x xs ih => exact le_trans (le_max_left acc x.length) (ih (max acc x.length))

/-- Every member length is below the running length maximum. -/
theorem length_le_foldl_max (p : String) (l : List String) :
    ∀ acc : Nat, p ∈ l → p.length ≤ l.foldl (fun m q => max m q.length) acc := by
  induction l with
  | nil => intro acc hp; cases hp
  | cons x xs ih =>
    intro acc hp
    rcases List.mem_cons.mp hp with h | h
    · subst h
      exact le_trans (le_max_right acc p.length) (foldl_max_le_init xs _)
    · exact ih _ h

/-- Folding max from the left from an accumulator is the max of the
accumulator and the fold from the right from zero. -/
theorem foldl_max_acc (l : List Nat) :
    ∀ acc : Nat, l.foldl max acc = max acc (l.foldr max 0) := by
  induction l with
  | nil => intro acc; exact (Nat.max_zero acc).symm
  | cons x xs ih =>
    intro acc
    simp only [List.foldl_cons, List.foldr_cons, ih (max acc x)]
    exact max_assoc acc x (xs.foldr max 0)

/-- The alignment width of printInfo is the maximum string length over
the union of the search-path list and the module list. -/
theorem maxPathLen_eq_union_max (env : InfoEnv) :
    maxPathLen env = ((env.searchPaths ++ env.modules).map String.length).foldr max 0 := by
  have h1 : maxPathLen env
      = (env.searchPaths ++ env.modules).foldl (fun m p => max m p.length) 0 := by
    unfold maxPathLen
    rw [List.foldl_append]
  have h2 : (env.searchPaths ++ env.modules).foldl (fun m p => max m p.length) 0
      = ((env.searchPaths ++ env.modules).map String.length).foldl max 0 := by
    rw [List.foldl_map]
  rw [h1, h2, foldl_max_acc]
  exact Nat.zero_max _

/-- The pad string of n spaces has length n. -/
theorem padTo_length (n : Nat) : (padTo n).length = n := by
  show (List.replicate n ' ').length = n
  exact List.length_replicate n ' '

/-- Lengths of search paths are bounded by the alignment width. -/
theorem searchPath_le_maxPathLen (env : InfoEnv) (p : String)
    (hp : p ∈ env.searchPaths) : p.length ≤ maxPathLen env :=
  le_trans (length_le_foldl_max p env.searchPaths 0 hp)
    (foldl_max_le_init env.modules _)

/-- Lengths of module paths are bounded by the alignment width. -/
theorem modulePath_le_maxPathLen (env : InfoEnv) (m : String)
    (hm : m ∈ env.modules) : m.length ≤ maxPathLen env :=
  length_le_foldl_max m env.modules _ hm

/-- Continuing the option loop and dispatching from two agreeing states
gives the same result when the dispatched workflow is not the rate
test. -/
theorem afterParse_post_agree (stod : String → Rat) (env : MainEnv) (post : List Opt)
    (s1 s2 : MainState) (hAg : AgreeExceptRate s1 s2)
    (hw : (afterParse env (parseLoop stod post s1)).ranWorkflow ≠ some Workflow.rateTestW) :
    afterParse env (parseLoop stod post s1) = afterParse env (parseLoop stod post s2) := by
  rcases parseLoop_agree stod post s1 s2 hAg with ⟨e, he1, he2⟩ | ⟨u, v, hu, hv, hAg2⟩
  · rw [he1, he2]
  · rw [hu] at hw
    rw [hu, hv]
    have hw2 : dispatch u ≠ Workflow.rateTestW := by
      intro hd
      apply hw
      show (runParsed env u).ranWorkflow = some Workflow.rateTestW
      rw [runParsed_workflow, hd]
    show runParsed env u = runParsed env v
    exact runParsed_agree env u v hAg2 hw2

/-- C4: exactly one workflow runs on any command line the option loop
completes, and it is selected by the fixed priority: check (given a
nonempty driver name) over find over make over probe over the rate test
(given a nonzero rate), with help as the fallback; the dispatch chain
coincides with the first-enabled-in-priority-order selection stated by
the spec. -/
theorem one_workflow_by_fixed_priority (stod : String → Rat) (env : MainEnv)
    (opts : List Opt) (s : MainState)
    (h : parseLoop stod opts initState = Sum.inr s) :
    (mainRun stod env opts).ranWorkflow = some (dispatch s) ∧
    dispatch s = dispatchSpec s := by
  constructor
  · unfold mainRun
    rw [h]
    exact runParsed_workflow env s
  · exact dispatch_eq_spec s

/-- Witness for C4 on the concrete command line with a lone find flag. -/
theorem one_workflow_by_fixed_priority_witness :
    (mainRun stod0 mainEnvW [Opt.find none]).ranWorkflow = some (dispatch parsedFindState) ∧
    dispatch parsedFindState = dispatchSpec parsedFindState :=
  one_workflow_by_fixed_priority stod0 mainEnvW [Opt.find none] parsedFindState rfl

/-- C7 counterexample: two command lines that differ only in the value
supplied to the args option make the find workflow behave differently,
because the args option writes the same argument string the find
workflow consumes: with one value a device is found (exit 0), with the
other none is (exit 1). -/
theorem find_result_depends_on_args_value :
    (mainRun stod0 mainEnvW [Opt.find none, Opt.args (some "a")]).exitCode = 0 ∧
    (mainRun stod0 mainEnvW [Opt.find none, Opt.args (some "b")]).exitCode = 1 ∧
    mainRun stod0 mainEnvW [Opt.find none, Opt.args (some "a")]
      ≠ mainRun stod0 mainEnvW [Opt.find none, Opt.args (some "b")] := by
  refine ⟨rfl, rfl, ?_⟩
  intro hEq
  exact Nat.zero_ne_one (congrArg ProcResult.exitCode hEq)

/-- C7 amended: the channels and direction parameters are consumed only
by the rate-test workflow: two command lines that differ only in the
value supplied to channels or to direction produce identical results
whenever the selected workflow is not the rate test (in particular for
find, make, probe, check and help). -/
theorem channels_direction_only_affect_rate_test
    (stod : String → Rat) (env : MainEnv) (pre post : List Opt)
    (f : Option String → Opt) (c c0 : Option String)
    (hf : f = Opt.channels ∨ f = Opt.direction)
    (hw : (mainRun stod env (pre ++ f c :: post)).ranWorkflow ≠ some Workflow.rateTestW) :
    mainRun stod env (pre ++ f c :: post) = mainRun stod env (pre ++ f c0 :: post) := by
  unfold mainRun at hw ⊢
  rw [parseLoop_append] at hw
  rw [parseLoop_append, parseLoop_append]
  cases hp : parseLoop stod pre initState with
  | inl e => rfl
  | inr s0 =>
    rw [hp] at hw
    rcases hf with hf | hf <;> subst hf <;>
      exact afterParse_post_agree stod env post _ _
        ⟨rfl, rfl, rfl, rfl, rfl, rfl, rfl⟩ hw

/-- Witness for the amended C7 on a concrete find command line with two
different channels values. -/
theorem channels_direction_only_affect_rate_test_witness :
    mainRun stod0 mainEnvW [Opt.find none, Opt.channels (some "0")]
      = mainRun stod0 mainEnvW [Opt.find none, Opt.channels (some "1")] :=
  channels_direction_only_affect_rate_test stod0 mainEnvW [Opt.find none] []
    Opt.channels (some "0") (some "1") (Or.inl rfl)
    (by intro hcon
        exact Workflow.noConfusion (Option.some.inj hcon))

/-- C8: the info workflow loads every module of the module list in list
order regardless of load failures (the scan never aborts), each module
line appears in the report, a nonempty load error is shown inline on a
continuation line of that module line, and the workflow always exits
with code 0. -/
theorem info_module_load_error_nonfatal (env : InfoEnv) :
    (printInfo env).exitCode = 0 ∧
    (printInfo env).loadModuleCalls = env.modules ∧
    (∀ m ∈ env.modules, moduleLine env m ∈ (printInfo env).out) ∧
    (∀ m ∈ env.modules, (env.loadModule m).isEmpty = false →
       moduleLine env m
         = "Module found: " ++ m ++ ("\n  " ++ env.loadModule m) ++
             (if (env.getModuleVersion m).isEmpty then ""
              else padTo (maxPathLen env - m.length) ++ " (" ++
                env.getModuleVersion m ++ ")")) := by
  refine ⟨rfl, rfl, ?_, ?_⟩
  · intro m hm
    have hmem : moduleLine env m ∈ env.modules.map (moduleLine env) :=
      List.mem_map_of_mem _ hm
    unfold printInfo
    simp only [List.mem_append]
    tauto
  · intro m hm herr
    unfold moduleLine
    rw [herr]
    simp

/-- Witness for C8 on a concrete environment whose first module fails to
load: the report still exits 0, both modules are loaded, and the failing
module line is in the report. -/
theorem info_module_load_error_nonfatal_witness :
    (printInfo infoEnvW).exitCode = 0 ∧
    (printInfo infoEnvW).loadModuleCalls = infoEnvW.modules ∧
    moduleLine infoEnvW "bad" ∈ (printInfo infoEnvW).out :=
  ⟨(info_module_load_error_nonfatal infoEnvW).1,
   (info_module_load_error_nonfatal infoEnvW).2.1,
   (info_module_load_error_nonfatal infoEnvW).2.2.1 "bad" (by decide)⟩

/-- C9: the alignment width equals the maximum length over the union of
the search-path list and the module list; every annotated line is
padded with exactly that width minus its own length spaces, so the
annotated column ends at the same width for search paths and modules
alike. -/
theorem info_alignment_from_union_max (env : InfoEnv) :
    maxPathLen env = ((env.searchPaths ++ env.modules).map String.length).foldr max 0 ∧
    (∀ p ∈ env.searchPaths,
       searchPathLine env p
         = "Search path:  " ++ p ++
             (if env.pathMissing p
              then padTo (maxPathLen env - p.length) ++ " (missing)"
              else "") ∧
       (padTo (maxPathLen env - p.length)).length = maxPathLen env - p.length ∧
       p.length + (padTo (maxPathLen env - p.length)).length = maxPathLen env) ∧
    (∀ m ∈ env.modules,
       (padTo (maxPathLen env - m.length)).length = maxPathLen env - m.length ∧
       m.length + (padTo (maxPathLen env - m.length)).length = maxPathLen env) := by
  refine ⟨maxPathLen_eq_union_max env, ?_, ?_⟩
  · intro p hp
    refine ⟨rfl, padTo_length _, ?_⟩
    rw [padTo_length]
    exact Nat.add_sub_cancel' (searchPath_le_maxPathLen env p hp)
  · intro m hm
    refine ⟨padTo_length _, ?_⟩
    rw [padTo_length]
    exact Nat.add_sub_cancel' (modulePath_le_maxPathLen env m hm)

/-- Witness for C9 on a concrete environment: the short missing search
path is padded up to the length of the longest module name. -/
theorem info_alignment_from_union_max_witness :
    String.length "pa" + (padTo (maxPathLen infoEnvW - String.length "pa")).length
      = maxPathLen infoEnvW :=
  (((info_alignment_from_union_max infoEnvW).2.1 "pa" (by decide)).2.2)

/-- C10: whenever help or info appears on the command line and no
earlier option is help or info, main returns at the point that flag is
parsed: the banner and the corresponding report are printed, the exit
code is 0, and no find, make, probe, check or rate-test workflow runs,
regardless of which other flags appear anywhere on the command line. -/
theorem help_info_short_circuit (stod : String → Rat) (env : MainEnv)
    (pre post : List Opt) (o : Opt)
    (ho : o = Opt.help ∨ o = Opt.info)
    (hpre : ∀ o1 ∈ pre, o1 ≠ Opt.help ∧ o1 ≠ Opt.info) :
    (mainRun stod env (pre ++ o :: post)).ranWorkflow = none ∧
    (mainRun stod env (pre ++ o :: post)).exitCode = 0 ∧
    (o = Opt.help →
      mainRun stod env (pre ++ o :: post)
        = { out := [], err := bannerLines ++ helpLines,
            exitCode := EXIT_SUCCESS, ranWorkflow := none }) ∧
    (o = Opt.info →
      mainRun stod env (pre ++ o :: post)
        = { out := (printInfo env.info).out, err := bannerLines,
            exitCode := (printInfo env.info).exitCode, ranWorkflow := none }) := by
  obtain ⟨s1, hs1⟩ := parseLoop_no_early stod pre initState hpre
  have hsplit : parseLoop stod (pre ++ o :: post) initState
      = parseLoop stod (o :: post) s1 := by
    rw [parseLoop_append, hs1]
  rcases ho with ho | ho <;> subst ho
  · unfold mainRun
    rw [hsplit]
    exact ⟨rfl, rfl, fun _ => rfl, fun hcon => Opt.noConfusion hcon⟩
  · unfold mainRun
    rw [hsplit]
    exact ⟨rfl, rfl, fun hcon => Opt.noConfusion hcon, fun _ => rfl⟩

/-- Witness for C10: a help flag between a find flag and a probe flag
short-circuits with exit 0 and no workflow. -/
theorem help_info_short_circuit_witness :
    (mainRun stod0 mainEnvW [Opt.find none, Opt.help, Opt.probe none]).ranWorkflow = none ∧
    (mainRun stod0 mainEnvW [Opt.find none, Opt.help, Opt.probe none]).exitCode = 0 :=
  ⟨(help_info_short_circuit stod0 mainEnvW [Opt.find none] [Opt.probe none] Opt.help
      (Or.inl rfl) (by decide)).1,
   (help_info_short_circuit stod0 mainEnvW [Opt.find none] [Opt.probe none] Opt.help
      (Or.inl rfl) (by decide)).2.1⟩

end SoapySDRUtil
